import Mathlib

/-!
Verification of the dynamic-component-loader repository.

Shallow embedding of the dynamic component loading logic of the repository
(`src/app/app.service.ts`, `src/app/profile/profile.service.ts`,
`src/app/profile/profile.component.ts`,
`src/app/profile/profile-container.component.ts`) together with the
reactive-stream semantics (`BehaviorSubject`, `mergeMap`, `takeUntil`,
`from(promise)`, `map`, `tap`) that the code relies on.

The embedding is an operational small-step semantics: a system state records
the contents of the view container, the in-flight (pending) dynamic-import
activations spawned by `mergeMap`, whether the outer subscription to
`isLoggedIn$` is still receiving emissions, and how many errors were
reported.  Events are state emissions, resolutions/failures of pending
imports, and component destruction.
-/

namespace DynLoader

/-- The two dynamically loadable profile components:
`GuestProfileComponent` and `ClientProfileComponent`
(`src/app/profile/guest-profile/guest-profile.component.ts`,
`src/app/profile/client-profile/client-profile.component.ts`). -/
inductive Key where
  | guest
  | client
deriving DecidableEq, Repr

/-- Mapping from the observed state to the loaded component:
`ProfileService.loadComponent` chooses the factory with
`isLoggedIn ? this.clientProfile() : this.guestProfile()`
(profile.service.ts line 38). -/
def keyOf (isLoggedIn : Bool) : Key :=
  if isLoggedIn then Key.client else Key.guest

/-- Observable system state of one profile controller instance.

* `container` — the units installed in the `ViewContainerRef`
  (`profileHost.viewContainerRef`), in creation order; `vcr.clear()` empties
  it and `vcr.createComponent` appends to it.
* `pending` — the keys of the in-flight inner observables spawned by
  `mergeMap` (one per processed emission) whose dynamic `import(...)` has not
  settled yet; `mergeMap` runs them all concurrently.
* `subscribed` — whether the outer subscription still delivers emissions of
  `isLoggedIn$` into `mergeMap`.
* `errored` — whether the subscription has terminated with an error.
* `errorsReported` — how many error notifications reached the subscriber. -/
structure SysState where
  container : List Key
  pending : List Key
  subscribed : Bool
  errored : Bool
  errorsReported : Nat
deriving DecidableEq, Repr

/-- State right after `ngOnInit` subscribed: empty container, nothing in
flight, outer subscription live. -/
def initState : SysState :=
  { container := [], pending := [], subscribed := true, errored := false,
    errorsReported := 0 }

/-- External events driving the controller:

* `emit b` — `isLoggedIn$` delivers the value `b` (the `BehaviorSubject`
  emitted, e.g. via `login()`/`logout()`, or the initial value on
  subscription);
* `resolve i` — the dynamic import of the `i`-th pending activation settles
  successfully (so `map` resolves the factory and `tap` creates the
  component);
* `fail i` — the dynamic import of the `i`-th pending activation rejects;
* `destroy` — the host component is destroyed (`ngOnDestroy`, when the
  variant has one). -/
inductive Event where
  | emit (b : Bool)
  | resolve (i : Nat)
  | fail (i : Nat)
  | destroy
deriving DecidableEq, Repr

/-- One step of the controller.  `hasTakeUntil` distinguishes the two
controller variants in the repository: `ProfileComponent`
(profile.component.ts) pipes `takeUntil(this.destroySubject)` and fires the
subject in `ngOnDestroy`; `ProfileContainerComponent`
(profile-container.component.ts) has neither.

* On `emit b` (delivered only while `subscribed`): `mergeMap` calls
  `loadComponent(viewContainerRef, b)`, which synchronously runs
  `vcr.clear()` (profile.service.ts line 35) and then calls
  `AppService.forChild`, which invokes `loadChildren()` — starting the
  dynamic import — and returns the inner observable that `mergeMap`
  subscribes to immediately.  Hence: container cleared, one more pending
  activation with key `keyOf b`.  `mergeMap` cancels nothing.
* On `resolve i`: the inner observable emits the loaded component class,
  `map` turns it into a factory and `tap` runs
  `vcr.createComponent(componentFactory)` (app.service.ts line 22) —
  appending the unit to the container; the inner completes and leaves
  `pending`.  This happens even if the outer already completed, because
  `mergeMap` keeps inner subscriptions alive after outer completion.
* On `fail i`: the inner observable errors; `mergeMap` forwards the error to
  the subscriber (one error notification) and tears the whole chain down:
  the outer subscription and all remaining inner subscriptions are
  unsubscribed.  The container is left as it is.
* On `destroy`: with `takeUntil`, `destroySubject.next()` completes the
  outer stream, so no further emissions are delivered; already-running inner
  imports are not cancelled.  Without `takeUntil` nothing happens: the
  subscription to the root-provided service outlives the component. -/
def step (hasTakeUntil : Bool) (s : SysState) : Event → SysState
  | Event.emit b =>
      if s.subscribed then
        { s with container := [], pending := s.pending ++ [keyOf b] }
      else s
  | Event.resolve i =>
      if i < s.pending.length then
        { s with container := s.container ++ [s.pending.getD i Key.guest],
                 pending := s.pending.eraseIdx i }
      else s
  | Event.fail i =>
      if i < s.pending.length then
        { s with pending := [], subscribed := false, errored := true,
                 errorsReported := s.errorsReported + 1 }
      else s
  | Event.destroy =>
      if hasTakeUntil then { s with subscribed := false } else s

/-- Run a list of events from the post-`ngOnInit` state. -/
def run (hasTakeUntil : Bool) (events : List Event) : SysState :=
  events.foldl (step hasTakeUntil) initState

/-- All states a run passes through (including start and end). -/
def states (hasTakeUntil : Bool) (s : SysState) : List Event → List SysState
  | [] => [s]
  | e :: es => s :: states hasTakeUntil (step hasTakeUntil s e) es

/-- A trace is sequential when every emission is processed while no
activation is in flight — i.e. each dynamic import settles before the next
state change arrives. -/
def seqTrace (hasTakeUntil : Bool) : SysState → List Event → Bool
  | _, [] => true
  | s, e :: es =>
      (match e with
       | Event.emit _ => s.pending.isEmpty
       | _ => true) && seqTrace hasTakeUntil (step hasTakeUntil s e) es

/-! ## Model of `ProfileService`'s state signal

`profile.service.ts` lines 7–8 and 26–32:
```
private isLoggedIn = new BehaviorSubject(false);
isLoggedIn$ = this.isLoggedIn.asObservable();
login()  { this.isLoggedIn.next(true); }
logout() { this.isLoggedIn.next(false); }
```
A `BehaviorSubject` keeps a current value, replays it immediately to every
new subscriber, and on `next(v)` stores `v` and pushes it to all current
subscribers unconditionally (no distinctness check). -/

/-- The `isLoggedIn` `BehaviorSubject` of `ProfileService`: current value
plus the log of values pushed to an existing subscriber so far. -/
structure ProfileState where
  isLoggedIn : Bool
  emitted : List Bool
deriving DecidableEq, Repr

/-- Model of `new BehaviorSubject(false)` — initial value `false`, nothing
emitted yet. -/
def initialProfileState : ProfileState :=
  { isLoggedIn := false, emitted := [] }

/-- Model of `BehaviorSubject.next(v)`: store `v` and push it to
subscribers, regardless of the previous value. -/
def subjectNext (s : ProfileState) (v : Bool) : ProfileState :=
  { isLoggedIn := v, emitted := s.emitted ++ [v] }

/-- Model of `ProfileService.login()` (profile.service.ts lines 26–28). -/
def login (s : ProfileState) : ProfileState :=
  subjectNext s true

/-- Model of `ProfileService.logout()` (profile.service.ts lines 30–32). -/
def logout (s : ProfileState) : ProfileState :=
  subjectNext s false

/-- The value a new subscriber of `isLoggedIn$` receives immediately on
subscription (`BehaviorSubject` replay). -/
def subscribeValue (s : ProfileState) : Bool :=
  s.isLoggedIn

/-! ## Model of `AppService.forChild`

`app.service.ts` lines 19–24:
```
forChild(vcr: ViewContainerRef, hc: HigherOrderComponent) {
  return from(hc.loadChildren()).pipe(
    map((component: any) => this.cfr.resolveComponentFactory(component)),
    tap(componentFactory => vcr.createComponent(componentFactory)));
}
```
`hc.loadChildren()` is evaluated when `forChild` itself runs — the promise
is created once, before the observable is returned.  `from(promise)` then
re-delivers the settled value of that single promise to every subscriber.
We model components as `α`, factories as `β`, the factory resolver
`cfr.resolveComponentFactory` as a function `α → β`, and the
`loadChildren` closure as a stateful producer `Nat → α` read at the current
invocation count so that invocations are observable. -/

/-- A world in which `forChild` runs: how many times `loadChildren` has
been invoked, and the contents of the target `ViewContainerRef`. -/
structure World (β : Type) where
  loadChildrenCalls : Nat
  container : List β
deriving Repr

/-- The observable returned by `forChild`: it closes over the single
promise created by the eager `hc.loadChildren()` call. -/
structure ForChildObservable (α : Type) where
  promiseValue : α
deriving Repr

/-- Calling `AppService.forChild`: invoke `loadChildren()` once (creating
the shared promise) and return the observable. -/
def forChild (loadChildren : Nat → α) (w : World β) :
    ForChildObservable α × World β :=
  ({ promiseValue := loadChildren w.loadChildrenCalls },
   { w with loadChildrenCalls := w.loadChildrenCalls + 1 })

/-- One subscription to the observable returned by `forChild`, after the
promise resolves: `from` emits the resolved component once, `map` applies
`cfr.resolveComponentFactory`, `tap` runs `vcr.createComponent` appending
to the container, and the stream completes.  Returns the list of values
emitted to this subscriber and the updated world. -/
def subscribeForChild (cfr : α → β) (o : ForChildObservable α)
    (w : World β) : List β × World β :=
  ([cfr o.promiseValue],
   { w with container := w.container ++ [cfr o.promiseValue] })

/-- Iterated subscriptions: `n` successive subscriptions to the same
`forChild` observable. -/
def subscribeForChildN (cfr : α → β) (o : ForChildObservable α)
    (w : World β) : Nat → World β
  | 0 => w
  | n + 1 => subscribeForChildN cfr o (subscribeForChild cfr o w).2 n

/-- Whether an event can add a unit to the container: only a successful
resolution (the `tap` running `vcr.createComponent`) does. -/
def installsUnit : Event → Bool
  | Event.resolve _ => true
  | _ => false

/-! Shared helper lemmas. -/

/-- Preservation of the one-unit bound over a step, given that emissions
only happen while nothing is in flight. -/
lemma step_oneUnit (v : Bool) (s : SysState) (e : Event)
    (hinv : s.container.length + s.pending.length ≤ 1)
    (hemit : ∀ b, e = Event.emit b → s.pending = []) :
    (step v s e).container.length + (step v s e).pending.length ≤ 1 := by
  cases e with
  | emit b =>
      have hp : s.pending = [] := hemit b rfl
      by_cases hs : s.subscribed = true
      · simp [step, hs, hp]
      · simp [step, hs]; omega
  | resolve i =>
      by_cases hi : i < s.pending.length
      · have hpos : 1 ≤ s.pending.length := Nat.one_le_iff_ne_zero.mpr
          (by intro h0; rw [h0] at hi; exact Nat.not_lt_zero i hi)
        simp [step, hi, List.length_eraseIdx]
        omega
      · simp [step, hi]; omega
  | fail i =>
      by_cases hi : i < s.pending.length
      · simp [step, hi]; omega
      · simp [step, hi]; omega
  | destroy =>
      by_cases hv : v = true
      · simp [step, hv]; omega
      · simp [step, hv]; omega

/-- Along any sequential trace starting from a state satisfying the
one-unit bound, every visited state keeps at most one unit installed. -/
lemma seq_oneUnit (v : Bool) :
    ∀ (es : List Event) (s : SysState),
      s.container.length + s.pending.length ≤ 1 →
      seqTrace v s es = true →
      ∀ t ∈ states v s es, t.container.length ≤ 1 := by
  intro es
  induction es with
  | nil =>
      intro s hinv _ t ht
      simp [states] at ht
      subst ht
      omega
  | cons e es ih =>
      intro s hinv hseq t ht
      simp only [seqTrace, Bool.and_eq_true] at hseq
      simp only [states, List.mem_cons] at ht
      rcases ht with rfl | ht
      · omega
      · refine ih (step v s e) ?_ hseq.2 t ht
        refine step_oneUnit v s e hinv ?_
        intro b he
        subst he
        simpa [List.isEmpty_iff] using hseq.1

/-- A step by an event that is not a resolution never adds a unit to an
empty container. -/
lemma step_keeps_empty (v : Bool) (s : SysState) (e : Event)
    (hc : s.container = []) (he : installsUnit e = false) :
    (step v s e).container = [] := by
  cases e with
  | emit b =>
      by_cases hs : s.subscribed = true
      · simp [step, hs]
      · simp [step, hs, hc]
  | resolve i => simp [installsUnit] at he
  | fail i =>
      by_cases hi : i < s.pending.length
      · simp [step, hi, hc]
      · simp [step, hi, hc]
  | destroy =>
      by_cases hv : v = true
      · simp [step, hv, hc]
      · simp [step, hv, hc]

/-- Invocation count of `loadChildren` is untouched by subscriptions. -/
lemma subscribeForChildN_calls (cfr : α → β) (o : ForChildObservable α) :
    ∀ (n : Nat) (w : World β),
      (subscribeForChildN cfr o w n).loadChildrenCalls =
        w.loadChildrenCalls := by
  intro n
  induction n with
  | zero => intro w; rfl
  | succ n ih =>
      intro w
      simp [subscribeForChildN, ih, subscribeForChild]

/-- Each successful subscription creates exactly one component in the
container. -/
lemma subscribeForChildN_container (cfr : α → β) (o : ForChildObservable α) :
    ∀ (n : Nat) (w : World β),
      (subscribeForChildN cfr o w n).container.length =
        w.container.length + n := by
  intro n
  induction n with
  | zero => intro w; rfl
  | succ n ih =>
      intro w
      simp [subscribeForChildN, ih, subscribeForChild]
      omega

/-! Claim theorems. -/

/-- C1, counterexample.  After the guest unit is active
(trace `emit false; resolve`), a new state change (`emit true`) leaves the
container observably empty while the client activation is still pending:
`loadComponent` runs `vcr.clear()` synchronously, so the previously active
unit does not remain visible until the newer activation completes. -/
theorem c1_counterexample :
    (run true [Event.emit false, Event.resolve 0]).container = [Key.guest] ∧
    (run true [Event.emit false, Event.resolve 0,
      Event.emit true]).container = [] ∧
    (run true [Event.emit false, Event.resolve 0,
      Event.emit true]).pending = [Key.client] := by
  decide

/-- C1, amended: the code implements flush-then-load, not
keep-old-until-ready.  Processing a state emission synchronously clears the
container — removing the previously active unit — and registers the new
activation as pending; the container is empty while the fresh activation is
in flight. -/
theorem c1_flush_then_load (v : Bool) (s : SysState) (b : Bool)
    (hs : s.subscribed = true) :
    (step v s (Event.emit b)).container = [] ∧
    (step v s (Event.emit b)).pending = s.pending ++ [keyOf b] := by
  simp [step, hs]

/-- C1, witness for the amended theorem at a concrete state. -/
theorem c1_flush_then_load_witness :
    (step true initState (Event.emit true)).container = [] ∧
    (step true initState (Event.emit true)).pending = [Key.client] :=
  c1_flush_then_load true initState true rfl

/-- C2, counterexample.  With `mergeMap` nothing is cancelled: if a second
state change arrives before the first dynamic import resolves, both
resolutions install their unit and the container holds two units
simultaneously. -/
theorem c2_counterexample :
    (run true [Event.emit false, Event.emit true, Event.resolve 0,
      Event.resolve 0]).container = [Key.guest, Key.client] ∧
    (run true [Event.emit false, Event.emit true, Event.resolve 0,
      Event.resolve 0]).container.length = 2 := by
  decide

/-- C2, amended: at most one unit is installed at any time only on
sequential traces — those in which every state change arrives while no
activation is in flight (each import settles before the next emission). -/
theorem c2_at_most_one_unit_sequential (v : Bool) (es : List Event)
    (hseq : seqTrace v initState es = true) :
    ∀ t ∈ states v initState es, t.container.length ≤ 1 :=
  seq_oneUnit v es initState (by simp [initState]) hseq

/-- C2, witness for the amended theorem on a concrete sequential trace. -/
theorem c2_at_most_one_unit_sequential_witness :
    seqTrace true initState [Event.emit false, Event.resolve 0,
      Event.emit true, Event.resolve 0] = true ∧
    ∀ t ∈ states true initState [Event.emit false, Event.resolve 0,
      Event.emit true, Event.resolve 0], t.container.length ≤ 1 :=
  ⟨by decide,
   c2_at_most_one_unit_sequential true
     [Event.emit false, Event.resolve 0, Event.emit true, Event.resolve 0]
     (by decide)⟩

/-- C3, counterexample.  Activation A (`emit false`) is superseded by
activation B (`emit true`) before resolving, yet A's late resolution still
creates and installs A's unit: after `emit false; emit true; resolve 0` the
guest unit sits in the container while B is still pending — A's resolution
is not ignored. -/
theorem c3_counterexample :
    (run true [Event.emit false, Event.emit true,
      Event.resolve 0]).container = [Key.guest] ∧
    (run true [Event.emit false, Event.emit true,
      Event.resolve 0]).pending = [Key.client] := by
  decide

/-- C3, amended: there is no cancellation law.  Resolving any pending
activation — superseded or not — appends its unit to the container; a
superseded activation's late resolution therefore has an observable
effect. -/
theorem c3_no_cancellation (v : Bool) (s : SysState) (i : Nat)
    (hi : i < s.pending.length) :
    (step v s (Event.resolve i)).container =
      s.container ++ [s.pending.getD i Key.guest] ∧
    (step v s (Event.resolve i)).pending = s.pending.eraseIdx i := by
  simp [step, hi]

/-- C3, witness for the amended theorem at a concrete state. -/
theorem c3_no_cancellation_witness :
    (step true (run true [Event.emit false, Event.emit true])
      (Event.resolve 0)).container = [Key.guest] ∧
    (step true (run true [Event.emit false, Event.emit true])
      (Event.resolve 0)).pending = [Key.client] := by
  have h := c3_no_cancellation true
    (run true [Event.emit false, Event.emit true]) 0 (by decide)
  simpa using h

/-- C4, counterexample.  With the guest unit active (after
`emit false; resolve`), a repeated emission of the same value `false` is
not a no-op: the container is cleared and a new guest resolution is
started, so re-activation does occur on an identical mapped key. -/
theorem c4_counterexample :
    (run true [Event.emit false, Event.resolve 0]).container =
      [Key.guest] ∧
    (run true [Event.emit false, Event.resolve 0, Event.emit false]).container
      = [] ∧
    (run true [Event.emit false, Event.resolve 0,
      Event.emit false]).pending = [Key.guest] ∧
    run true [Event.emit false, Event.resolve 0, Event.emit false] ≠
      run true [Event.emit false, Event.resolve 0] := by
  decide

/-- C4, amended: there is no idempotence check (no key comparison, no
`distinctUntilChanged`).  Even when the emitted value maps to the key of
the currently installed unit, the emission tears the unit down and starts a
fresh resolution. -/
theorem c4_no_idempotence (v : Bool) (s : SysState) (b : Bool)
    (hs : s.subscribed = true) (hsame : s.container = [keyOf b]) :
    (step v s (Event.emit b)).container = [] ∧
    (step v s (Event.emit b)).pending.length = s.pending.length + 1 := by
  simp [step, hs]

/-- C4, witness for the amended theorem at a concrete state. -/
theorem c4_no_idempotence_witness :
    (step true
      { container := [Key.guest], pending := [], subscribed := true,
        errored := false, errorsReported := 0 }
      (Event.emit false)).container = [] ∧
    (step true
      { container := [Key.guest], pending := [], subscribed := true,
        errored := false, errorsReported := 0 }
      (Event.emit false)).pending.length = 0 + 1 :=
  c4_no_idempotence true
    { container := [Key.guest], pending := [], subscribed := true,
      errored := false, errorsReported := 0 }
    false rfl (by decide)

/-- C5, counterexample.  Guest is active, a `login` emission starts the
client activation (clearing the container), and the client import fails:
the previously active guest unit is *not* still installed (the container is
empty), and the error terminates the subscription, so a subsequent
emission is ignored rather than processed. -/
theorem c5_counterexample :
    (run true [Event.emit false, Event.resolve 0, Event.emit true,
      Event.fail 0]).container = [] ∧
    (run true [Event.emit false, Event.resolve 0, Event.emit true,
      Event.fail 0]).subscribed = false ∧
    run true [Event.emit false, Event.resolve 0, Event.emit true,
      Event.fail 0, Event.emit false] =
      run true [Event.emit false, Event.resolve 0, Event.emit true,
        Event.fail 0] := by
  decide

/-- C5, amended: on a resolution failure the container keeps the state it
had when the failure is observed — which is empty for the failed attempt,
since `loadComponent` cleared it up front, so the previously active unit is
not restored; exactly one error notification is reported, the subscription
terminates (taking every other in-flight activation down with it), and all
subsequent state emissions are ignored. -/
theorem c5_failure_terminates (v : Bool) (s : SysState) (i : Nat)
    (hi : i < s.pending.length) :
    (step v s (Event.fail i)).container = s.container ∧
    (step v s (Event.fail i)).pending = [] ∧
    (step v s (Event.fail i)).subscribed = false ∧
    (step v s (Event.fail i)).errored = true ∧
    (step v s (Event.fail i)).errorsReported = s.errorsReported + 1 ∧
    ∀ b, step v (step v s (Event.fail i)) (Event.emit b) =
      step v s (Event.fail i) := by
  refine ⟨by simp [step, hi], by simp [step, hi], by simp [step, hi],
    by simp [step, hi], by simp [step, hi], ?_⟩
  intro b
  simp [step, hi]

/-- C5, witness for the amended theorem at a concrete state. -/
theorem c5_failure_terminates_witness :
    (step true (run true [Event.emit false, Event.resolve 0,
      Event.emit true]) (Event.fail 0)).container = [] ∧
    (step true (run true [Event.emit false, Event.resolve 0,
      Event.emit true]) (Event.fail 0)).subscribed = false := by
  have h := c5_failure_terminates true
    (run true [Event.emit false, Event.resolve 0, Event.emit true]) 0
    (by decide)
  exact ⟨by simpa using h.1, h.2.2.1⟩

/-- C6, confirmed.  The reference scenario holds: the subject starts at
`false` and that is what a new subscriber receives; `false` maps to the
guest unit and `true` to the client unit; after the initial emission
resolves, the guest unit is installed; on `login` (flip to `true`) the
guest unit is removed and, once the import resolves, the client unit is
installed; on `logout` (flip back to `false`) the reverse happens. -/
theorem c6_reference_scenario :
    initialProfileState.isLoggedIn = false ∧
    subscribeValue initialProfileState = false ∧
    (login initialProfileState).isLoggedIn = true ∧
    (logout (login initialProfileState)).isLoggedIn = false ∧
    keyOf false = Key.guest ∧ keyOf true = Key.client ∧
    (run true [Event.emit false, Event.resolve 0]).container = [Key.guest] ∧
    (run true [Event.emit false, Event.resolve 0,
      Event.emit true]).container = [] ∧
    (run true [Event.emit false, Event.resolve 0, Event.emit true,
      Event.resolve 0]).container = [Key.client] ∧
    (run true [Event.emit false, Event.resolve 0, Event.emit true,
      Event.resolve 0, Event.emit false]).container = [] ∧
    (run true [Event.emit false, Event.resolve 0, Event.emit true,
      Event.resolve 0, Event.emit false, Event.resolve 0]).container =
      [Key.guest] := by
  decide

/-- C7, counterexample.  `ProfileContainerComponent` subscribes in
`ngOnInit` but has no `ngOnDestroy` and no `takeUntil`: destroying it
changes nothing, and a state emission arriving after its destruction still
triggers an activation (clearing the container and starting a resolution),
contradicting "unsubscribes on shutdown". -/
theorem c7_counterexample :
    run false [Event.destroy] = initState ∧
    (run false [Event.destroy, Event.emit true]).pending = [Key.client] ∧
    run false [Event.destroy, Event.emit true] ≠ run false [Event.destroy]
    := by
  decide

/-- C7, amended: only the `ProfileComponent` variant unsubscribes on
shutdown — after its destruction (via `takeUntil(destroySubject)`) further
emissions cause no activation and no container change; the
`ProfileContainerComponent` variant subscribes once but never unsubscribes,
its destruction being a no-op on the subscription.  Both variants start
subscribed (they subscribe exactly once, in `ngOnInit`). -/
theorem c7_unsubscribe_on_destroy (s : SysState) (b : Bool) :
    (step true s Event.destroy).subscribed = false ∧
    step true (step true s Event.destroy) (Event.emit b) =
      step true s Event.destroy ∧
    step false s Event.destroy = s ∧
    initState.subscribed = true := by
  refine ⟨by simp [step], ?_, by simp [step], rfl⟩
  simp [step]

/-- C8, counterexample.  The clear is synchronous, but "zero units until
the import resolves" fails once activations overlap: after
`emit true; emit false`, the second change is processed and its import is
still pending, yet the first activation's late resolution installs the
client unit — one unit sits in the container inside the second change's
pending window. -/
theorem c8_counterexample :
    (run true [Event.emit true, Event.emit false,
      Event.resolve 0]).container = [Key.client] ∧
    (run true [Event.emit true, Event.emit false,
      Event.resolve 0]).container.length = 1 ∧
    Key.guest ∈ (run true [Event.emit true, Event.emit false,
      Event.resolve 0]).pending := by
  decide

/-- C8, amended: every processed state change clears the container
synchronously before its resolution begins, and the container then stays
empty under every event except a resolution — but the resolution that
refills it may belong to an earlier, superseded activation, so "zero units
until *its* import resolves" holds only when no other activation is in
flight. -/
theorem c8_clear_before_load (v : Bool) (s : SysState) (b : Bool)
    (e : Event) (hs : s.subscribed = true) (he : installsUnit e = false) :
    (step v s (Event.emit b)).container = [] ∧
    (step v (step v s (Event.emit b)) e).container = [] := by
  have hclear : (step v s (Event.emit b)).container = [] := by
    simp [step, hs]
  exact ⟨hclear, step_keeps_empty v _ e hclear he⟩

/-- C8, witness for the amended theorem at a concrete state. -/
theorem c8_clear_before_load_witness :
    (step true initState (Event.emit false)).container = [] ∧
    (step true (step true initState (Event.emit false))
      Event.destroy).container = [] :=
  c8_clear_before_load true initState false Event.destroy rfl rfl

/-- C9, counterexample.  `forChild` evaluates `hc.loadChildren()` eagerly,
once, when it is called — `from(promise)` then shares that single promise:
after one `forChild` call and two subscriptions, `loadChildren` has been
invoked exactly once (not once per subscription), even though each
subscription created its own component. -/
theorem c9_counterexample :
    (subscribeForChildN (fun a => a)
      (forChild (fun n => n)
        ({ loadChildrenCalls := 0, container := [] } : World Nat)).1
      (forChild (fun n => n)
        ({ loadChildrenCalls := 0, container := [] } : World Nat)).2
      2).loadChildrenCalls = 1 ∧
    (subscribeForChildN (fun a => a)
      (forChild (fun n => n)
        ({ loadChildrenCalls := 0, container := [] } : World Nat)).1
      (forChild (fun n => n)
        ({ loadChildrenCalls := 0, container := [] } : World Nat)).2
      2).loadChildrenCalls ≠ 2 ∧
    (subscribeForChildN (fun a => a)
      (forChild (fun n => n)
        ({ loadChildrenCalls := 0, container := [] } : World Nat)).1
      (forChild (fun n => n)
        ({ loadChildrenCalls := 0, container := [] } : World Nat)).2
      2).container.length = 2 := by
  decide

/-- C9, amended: `loadChildren` is invoked exactly once, at the moment
`forChild` itself is called, and the resulting promise is shared across
subscriptions (subscribing never invokes it again); per successful
subscription the observable emits exactly one value (the resolved factory)
and creates exactly one component in the container. -/
theorem c9_single_invocation_shared_promise (α β : Type)
    (loadChildren : Nat → α) (cfr : α → β) (w w2 : World β)
    (o : ForChildObservable α) (n : Nat) :
    (forChild loadChildren w).2.loadChildrenCalls =
      w.loadChildrenCalls + 1 ∧
    (forChild loadChildren w).2.container = w.container ∧
    (subscribeForChild cfr o w2).1 = [cfr o.promiseValue] ∧
    (subscribeForChild cfr o w2).2.container =
      w2.container ++ [cfr o.promiseValue] ∧
    (subscribeForChildN cfr o w2 n).loadChildrenCalls =
      w2.loadChildrenCalls ∧
    (subscribeForChildN cfr o w2 n).container.length =
      w2.container.length + n := by
  refine ⟨rfl, rfl, rfl, rfl, ?_, ?_⟩
  · exact subscribeForChildN_calls cfr o n w2
  · exact subscribeForChildN_container cfr o n w2

/-- C10, confirmed.  `login()` unconditionally sets the subject to `true`
and `logout()` to `false`; every call pushes a new emission to subscribers
even when the value is unchanged (no distinctness check); and a new
subscriber immediately receives the current value. -/
theorem c10_login_logout_semantics (s : ProfileState) :
    (login s).isLoggedIn = true ∧
    (login s).emitted = s.emitted ++ [true] ∧
    (logout s).isLoggedIn = false ∧
    (logout s).emitted = s.emitted ++ [false] ∧
    (login (login s)).emitted = s.emitted ++ [true, true] ∧
    (logout (logout s)).emitted = s.emitted ++ [false, false] ∧
    subscribeValue (login s) = true ∧
    subscribeValue (logout s) = false ∧
    subscribeValue s = s.isLoggedIn := by
  simp [login, logout, subjectNext, subscribeValue]

end DynLoader
